import Mathlib

/-!
Verification of the narrative-orchestration engine (game_master.py, loader.py,
systems.py, AI_model.py) against its natural-language specification.

The Python modules are shallowly embedded as executable Lean functions:
  * `Scene`, `SceneOption`, `Player`, `HistoryEntry`, `Snapshot` mirror the
    dataclasses of models.py (plus the runtime attributes game_master.py uses);
  * `GMState` collects the mutable fields of `GameMaster` together with the
    `MemoryManager` window/snapshot, the narrative log and the stat-change
    notification trace (the `on_stat_change` callback calls);
  * `run_turn`, `run_mode_a`, `run_mode_b`, `select_option`, `apply_effect`,
    `handle_events` transcribe the methods of GameMaster.  The generation
    service (`call_ai_game_master`) is an external collaborator, so the scene
    it returns is passed to `run_turn` as an explicit argument, and the result
    of `EventManager.check_triggers` (which draws ambient randomness) is passed
    as the explicit `fired` list;
  * `load_world` transcribes ThemeLoader.load_world of loader.py over a typed
    configuration value;
  * `parse_gm_response` transcribes AI_model.parse_gm_response over a JSON
    value; the outcome of Python's `json.loads` on the extracted text is an
    explicit argument (`none` models a raised JSONDecodeError).

Python exceptions that the source does not catch (KeyError on a missing scene
id, AttributeError on calling `.get` of a non-dict) are modelled as
`Except.error`; file writes are modelled by recording the written value.
-/

namespace RPG

/-- Python `str.lower()` (ASCII-faithful, which covers every id the engine
compares). -/
def pyLower (s : String) : String := String.mk (s.data.map Char.toLower)

/-- Python `str.capitalize()`: first character upper-cased, the rest
lower-cased. -/
def pyCapitalize (s : String) : String :=
  match s.data with
  | [] => ""
  | c :: rest => String.mk (c.toUpper :: rest.map Char.toLower)

/-- ASCII whitespace, the characters `str.strip()` removes in the inputs the
engine sees. -/
def pySpace (c : Char) : Bool :=
  c == ' ' || c == '\t' || c == '\n' || c == '\r'

/-- Python `str.strip()`. -/
def pyStrip (s : String) : String :=
  String.mk (((s.data.dropWhile pySpace).reverse.dropWhile pySpace).reverse)

/-- Does the second list appear at the head of the first? -/
def leadsWith : List Char → List Char → Bool
  | _, [] => true
  | [], _ :: _ => false
  | a :: as, b :: bs => a == b && leadsWith as bs

def hasSubAux (needle : List Char) : List Char → Bool
  | [] => needle.isEmpty
  | c :: rest => leadsWith (c :: rest) needle || hasSubAux needle rest

/-- Python `needle in hay` (substring containment). -/
def containsSub (hay needle : String) : Bool :=
  hasSubAux needle.data hay.data

/-- Python `hay.startswith(needle)`. -/
def pyStartsWith (hay needle : String) : Bool :=
  leadsWith hay.data needle.data

def digitsToNat : List Char → Nat → Option Nat
  | [], acc => some acc
  | c :: cs, acc =>
    if c.isDigit then digitsToNat cs (acc * 10 + (c.toNat - 48)) else none

/-- Python `int(x)` on a string: surrounding whitespace stripped, optional
sign, at least one decimal digit; anything else raises ValueError (modelled as
`none`).  Exotic accepted forms (digit-group underscores, non-ASCII digits) do
not occur in this engine's inputs and are not modelled. -/
def pyInt (x : String) : Option Int :=
  match (pyStrip x).data with
  | [] => none
  | '-' :: [] => none
  | '-' :: cs => (digitsToNat cs 0).map (fun n => -(n : Int))
  | '+' :: [] => none
  | '+' :: cs => (digitsToNat cs 0).map (fun n => (n : Int))
  | cs => (digitsToNat cs 0).map (fun n => (n : Int))

/-- A choice available in a scene (models.Option; renamed because `Option` is
taken by Lean's core library). -/
structure SceneOption where
  id : Int
  text : String
  next_scene_id : String
deriving Repr, DecidableEq

/-- A narrative node (models.Scene). -/
structure Scene where
  id : String
  text : String
  is_end : Bool
  options : List SceneOption
deriving Repr, DecidableEq

/-- The player (models.Player).  `inventory` keeps the item names (the only
projection of items the engine persists).  `extra` models integer attributes
created dynamically by `setattr` in `GameMaster._apply_effect` for stat names
that are not declared fields; the non-integer attributes `current_scene_id` and
`inventory` are outside the integer-stat namespace (adding an int delta to them
raises TypeError in Python and is not modelled). -/
structure Player where
  current_scene_id : String
  inventory : List String
  hp : Int
  mana : Int
  bullet : Int
  credits : Int
  extra : List (String × Int)
deriving Repr, DecidableEq

/-- Python `getattr(player, stat, default)` restricted to the integer-stat
namespace: `none` means the attribute does not exist. -/
def Player.getStat (p : Player) (stat : String) : Option Int :=
  if stat = "hp" then some p.hp
  else if stat = "mana" then some p.mana
  else if stat = "bullet" then some p.bullet
  else if stat = "credits" then some p.credits
  else p.extra.lookup stat

/-- Python `setattr(player, stat, v)` on the integer-stat namespace: known
fields are overwritten, any other name becomes (or updates) a dynamic
attribute. -/
def Player.setStat (p : Player) (stat : String) (v : Int) : Player :=
  if stat = "hp" then { p with hp := v }
  else if stat = "mana" then { p with mana := v }
  else if stat = "bullet" then { p with bullet := v }
  else if stat = "credits" then { p with credits := v }
  else if p.extra.any (fun q => q.1 == stat) then
    { p with extra := p.extra.map (fun q => if q.1 == stat then (stat, v) else q) }
  else { p with extra := p.extra ++ [(stat, v)] }

/-- One entry of MemoryManager.history_window: the dict
`\x7b"action": user_input, "result": game_response.strip()\x7d`.  The spec's
HistoryEntry calls the two components `input` and `output`. -/
structure HistoryEntry where
  action : String
  result : String
deriving Repr, DecidableEq

/-- MemoryManager.add_interaction: append, then evict the oldest entry once the
window holds more than 5. -/
def addInteraction (window : List HistoryEntry) (user_input game_response : String) :
    List HistoryEntry :=
  let w := window ++ [⟨user_input, pyStrip game_response⟩]
  if w.length > 5 then w.drop 1 else w

/-- The durable projection written by MemoryManager.save_snapshot (the
wall-clock timestamp is not modelled). -/
structure Snapshot where
  hp : Int
  mana : Int
  bullet : Int
  credits : Int
  inventory : List String
  current_location : String
  recent_history : List HistoryEntry
  turn_count : Nat
deriving Repr, DecidableEq

def mkSnapshot (p : Player) (current_scene_id : String) (recent_history : List HistoryEntry)
    (turn_count : Nat) : Snapshot :=
  { hp := p.hp, mana := p.mana, bullet := p.bullet, credits := p.credits,
    inventory := p.inventory, current_location := current_scene_id,
    recent_history := recent_history, turn_count := turn_count }

/-- The object `call_ai_game_master` hands back to GameMaster._run_mode_b, with
the attributes that method reads: a scene plus `reached_target_plot` and
`stat_changes` (an empty list models a missing or empty/falsy dict). -/
structure AIScene where
  id : String
  text : String
  is_end : Bool
  options : List SceneOption
  reached_target_plot : Bool
  stat_changes : List (String × Int)
deriving Repr, DecidableEq

/-- A stat-change notification: the text and RGB colour passed to the
`on_stat_change` callback. -/
structure Notification where
  text : String
  color : Nat × Nat × Nat
deriving Repr, DecidableEq

/-- The session state of a GameMaster: scene dict and player (WorldState), the
MemoryManager window and last written snapshot, turn budget, AI-control flags,
and the observable traces (narrative log lines, notification callbacks). -/
structure GMState where
  scenes : List (String × Scene)
  player : Player
  history_window : List HistoryEntry
  snapshot : Option Snapshot
  global_turn_count : Nat
  max_turns : Nat
  in_dynamic_mode : Bool
  saved_target_scene_id : Option String
  target_scene_text : Option String
  log : List (String × String)
  notifications : List Notification
deriving Repr, DecidableEq

/-- Lookup in a Python dict modelled as an insertion-ordered association
list. -/
def dictLookup (m : List (String × Scene)) (k : String) : Option Scene :=
  m.lookup k

/-- Python dict assignment `m[k] = v`: an existing key keeps its position, a
new key is appended. -/
def dictInsert (m : List (String × Scene)) (k : String) (v : Scene) :
    List (String × Scene) :=
  if m.any (fun p => p.1 == k) then
    m.map (fun p => if p.1 == k then (k, v) else p)
  else m ++ [(k, v)]

/-- The colour table of GameMaster._apply_effect; `colors.get(stat, (255, 255,
255))`. -/
def statColor (stat : String) : Nat × Nat × Nat :=
  if stat = "hp" then (200, 50, 50)
  else if stat = "mana" then (50, 50, 200)
  else if stat = "bullet" then (200, 200, 50)
  else if stat = "credits" then (50, 200, 50)
  else (255, 255, 255)

/-- One iteration of the loop in GameMaster._apply_effect, acting on the player
and the notification trace. -/
def applyStat (p : Player) (ns : List Notification) (stat : String) (delta : Int) :
    Player × List Notification :=
  if delta ≠ 0 then
    let old_val := (p.getStat stat).getD 0
    let new_val := old_val + delta
    let new_val := if stat = "hp" then max 0 (min 100 new_val) else max 0 new_val
    let sgn := if delta > 0 then "+" else ""
    (p.setStat stat new_val,
     ns ++ [⟨sgn ++ toString delta ++ " " ++ pyCapitalize stat, statColor stat⟩])
  else (p, ns)

/-- GameMaster._apply_effect on the (player, notifications) components: iterate
the effect dict in insertion order. -/
def applyEffectCore (p : Player) (ns : List Notification)
    (effect : List (String × Int)) : Player × List Notification :=
  effect.foldl (fun acc e => applyStat acc.1 acc.2 e.1 e.2) (p, ns)

/-- GameMaster._apply_effect lifted to the session state. -/
def apply_effect (s : GMState) (effect : List (String × Int)) : GMState :=
  let r := applyEffectCore s.player s.notifications effect
  { s with player := r.1, notifications := r.2 }

/-- GameMaster._handle_events.  `check_triggers` draws ambient randomness, so
the list of fired (effect, description) pairs it returned is an explicit
argument; the method applies each effect and collects the descriptions. -/
def handle_events (s : GMState) (fired : List (List (String × Int) × String)) :
    GMState × List String :=
  (fired.foldl (fun st f => apply_effect st f.1) s, fired.map (fun f => f.2))

/-- GameMaster.get_current_scene: `self.state.scenes[...]`; a missing key
raises KeyError. -/
def get_current_scene (s : GMState) : Except String Scene :=
  match dictLookup s.scenes s.player.current_scene_id with
  | none => .error ("KeyError: " ++ s.player.current_scene_id)
  | some sc => .ok sc

/-- GameMaster._select_option: find the option by id in the current scene; on a
hit, log the choice, move the player, append to the history window and write
the snapshot, returning True; on a miss return False leaving everything
untouched.  The KeyError `get_current_scene` can raise propagates (the caller
only catches ValueError). -/
def select_option (s : GMState) (choice_id : Int) : Except String (GMState × Bool) :=
  match dictLookup s.scenes s.player.current_scene_id with
  | none => .error ("KeyError: " ++ s.player.current_scene_id)
  | some scene =>
    match scene.options.find? (fun opt => opt.id == choice_id) with
    | none => .ok (s, false)
    | some selected_option =>
      let s := { s with log := s.log ++ [("PLAYER", selected_option.text)] }
      let s := { s with player :=
        { s.player with current_scene_id := selected_option.next_scene_id } }
      let s := { s with history_window :=
        (addInteraction s.history_window (toString choice_id) selected_option.text) }
      let s := { s with snapshot := some (mkSnapshot s.player
        s.player.current_scene_id s.history_window s.global_turn_count) }
      .ok (s, true)

/-- The value Python stores when `opt.next_scene_id = self.saved_target_scene_id`
executes with the anchor still None (which no reachable session exhibits: the
anchor is recorded before dynamic mode is entered); the None object is rendered
as the string "None". -/
def anchorStr : Option String → String
  | some a => a
  | none => "None"

/-- `player_input or "Transition"`: None and the empty string are falsy. -/
def inputOrTransition : Option String → String
  | none => "Transition"
  | some str => if str = "" then "Transition" else str

/-- GameMaster._run_mode_b.  `ai_input` is the object the external generation
call returned.  Steps: force a conclusion when the turn budget is exhausted;
apply AI-generated stat consequences; either keep a terminal scene, re-anchor
the options to the saved target and leave dynamic mode, or rewrite the
`dynamic_await` placeholder; then insert the scene, move the player, log,
append history and write the snapshot. -/
def run_mode_b (s : GMState) (ai_input : AIScene) (player_input : Option String) :
    GMState × String :=
  let ai := if s.global_turn_count ≥ s.max_turns then
      { ai_input with is_end := true, options := [] }
    else ai_input
  let s := if ai.stat_changes ≠ [] then apply_effect s ai.stat_changes else s
  let ai :=
    if ai.is_end then ai
    else if ai.reached_target_plot then
      { ai with options := (ai.options.map
        (fun opt => { opt with next_scene_id := anchorStr s.saved_target_scene_id })) }
    else
      { ai with options := ai.options.map (fun opt =>
        if opt.next_scene_id = "dynamic_await" then
          { opt with next_scene_id := "ai_sandbox_node" }
        else opt) }
  let s := if ai.is_end then s
    else if ai.reached_target_plot then { s with in_dynamic_mode := false }
    else s
  let scene : Scene :=
    { id := ai.id, text := ai.text, is_end := ai.is_end, options := ai.options }
  let s := { s with scenes := dictInsert s.scenes ai.id scene,
                    player := { s.player with current_scene_id := ai.id } }
  let s := { s with log := s.log ++ [("AI_GM", ai.text)] }
  let s := { s with history_window :=
    (addInteraction s.history_window (inputOrTransition player_input) ai.text) }
  let s := { s with snapshot := some (mkSnapshot s.player ai.id
    s.history_window s.global_turn_count) }
  (s, ai.text)

/-- GameMaster._run_mode_a: deterministic logic from world.json.  Forces the AI
climax once the turn budget is reached on a non-terminal scene, otherwise runs
event triggers and checks the hardcoded AI-takeover naming convention. -/
def run_mode_a (s : GMState) (ai : AIScene)
    (fired : List (List (String × Int) × String)) :
    Except String (GMState × String × List String) :=
  match dictLookup s.scenes s.player.current_scene_id with
  | none => .error ("KeyError: " ++ s.player.current_scene_id)
  | some current_scene =>
    if s.global_turn_count ≥ s.max_turns ∧ ¬current_scene.is_end then
      let s := { s with in_dynamic_mode := true,
                        target_scene_text := some "The story reaches its final conclusion.",
                        saved_target_scene_id := some current_scene.id }
      let r := run_mode_b s ai (some "The temporal distortion forces an ending.")
      .ok (r.1, r.2, [])
    else
      let he := handle_events s fired
      let s := he.1
      let fired_descriptions := he.2
      if pyStartsWith (pyLower current_scene.id) "end_game_ai"
          || containsSub (pyLower current_scene.id) "ai_takeover" then
        let s := { s with in_dynamic_mode := true }
        let r := run_mode_b s ai
          (some ("The player reached the transition node: " ++ current_scene.text))
        .ok (r.1, r.2, fired_descriptions)
      else
        .ok (s, current_scene.text, fired_descriptions)

/-- Step 2 of GameMaster.run_turn: dispatch on the dynamic-mode flag. -/
def run_turn_dispatch (s : GMState) (ai : AIScene)
    (fired : List (List (String × Int) × String)) (player_input : Option String) :
    Except String (GMState × String × List String) :=
  if s.in_dynamic_mode then
    let r := run_mode_b s ai player_input
    .ok (r.1, r.2, [])
  else
    run_mode_a s ai fired

/-- GameMaster.run_turn.  The generation result `ai` and the fired trigger list
`fired` stand for the two external effects (the AI bridge and ambient
randomness); they are consumed only on the paths that reach the corresponding
calls.  The turn counter is incremented first; a truthy input is either parsed
as an option id (the Boolean result of `_select_option` is discarded) or, on
ValueError, treated as a custom action that records the anchor and delegates to
Mode B. -/
def run_turn (s : GMState) (ai : AIScene)
    (fired : List (List (String × Int) × String)) (player_input : Option String) :
    Except String (GMState × String × List String) :=
  let s := { s with global_turn_count := s.global_turn_count + 1 }
  match player_input with
  | none => run_turn_dispatch s ai fired none
  | some str =>
    if str = "" then run_turn_dispatch s ai fired (some str)
    else
      match pyInt str with
      | some choice_id =>
        match select_option s choice_id with
        | .error e => .error e
        | .ok r => run_turn_dispatch r.1 ai fired (some str)
      | none =>
        if ¬s.in_dynamic_mode then
          match dictLookup s.scenes s.player.current_scene_id with
          | none => .error ("KeyError: " ++ s.player.current_scene_id)
          | some current_scene =>
            let s := { s with saved_target_scene_id := some current_scene.id,
                              target_scene_text := some current_scene.text,
                              in_dynamic_mode := true }
            let r := run_mode_b s ai (some str)
            .ok (r.1, r.2, [])
        else
          let r := run_mode_b s ai (some str)
          .ok (r.1, r.2, [])

/-- The scene id the player stands at after step 1 of run_turn (input
processing): an input that selects a valid option of the current scene moves to
that option's target, every other input leaves the player in place.  Used to
phrase "the current scene of the turn" in theorem statements. -/
def resolveChoice (s : GMState) (choice_id : Int) : String :=
  match dictLookup s.scenes s.player.current_scene_id with
  | none => s.player.current_scene_id
  | some scene =>
    match scene.options.find? (fun opt => opt.id == choice_id) with
    | none => s.player.current_scene_id
    | some opt => opt.next_scene_id

def resolveLocation (s : GMState) (player_input : Option String) : String :=
  match player_input with
  | none => s.player.current_scene_id
  | some str =>
    if str = "" then s.player.current_scene_id
    else
      match pyInt str with
      | some choice_id => resolveChoice s choice_id
      | none => s.player.current_scene_id

/-! ### ThemeLoader.load_world (loader.py) -/

/-- The raw data of one scene in world.json, with the fields
ThemeLoader.load_world reads: optional `text` (default "") and `is_end`
(default False) and a list of options (modelled with their three fields
present and well-typed, as every shipped theme has them). -/
structure SceneData where
  text : Option String
  is_end : Option Bool
  options : List SceneOption
deriving Repr, DecidableEq

/-- The raw player block (`data.get("player", \x7b\x7d)`). -/
structure PlayerData where
  hp : Option Int
  mana : Option Int
  bullet : Option Int
  credits : Option Int
deriving Repr, DecidableEq

/-- A parsed world.json: the scene dict in insertion order, the optional
`initial_scene_id`, and the optional player block. -/
structure WorldConfig where
  scenes : List (String × SceneData)
  initial_scene_id : Option String
  player : Option PlayerData
deriving Repr, DecidableEq

/-- The WorldState load_world returns. -/
structure LoadedWorld where
  scenes : List (String × Scene)
  player : Player
deriving Repr, DecidableEq

/-- Step 1 of load_world: build Scene values from the raw scene entries. -/
def parseScenes (raw : List (String × SceneData)) : List (String × Scene) :=
  raw.map (fun e =>
    (e.1, { id := e.1, text := e.2.text.getD "", is_end := e.2.is_end.getD false,
            options := e.2.options }))

/-- The first option (scanning scenes, then options, in order) whose
`next_scene_id` is not a key of the scene dict — the option at which the
validation loop of load_world raises. -/
def findDangling (scenes : List (String × Scene)) : Option (String × SceneOption) :=
  scenes.findSome? (fun e =>
    (e.2.options.find? (fun opt =>
      !scenes.any (fun p => p.1 == opt.next_scene_id))).map (fun opt => (e.1, opt)))

/-- The ValueError message of the dangling-reference validation. -/
def danglingMsg (scene_id : String) (opt : SceneOption) : String :=
  "Validation Error: Scene \x27" ++ scene_id ++ "\x27 has an option \x27" ++
    toString opt.id ++ "\x27 leading to non-existent scene \x27" ++
    opt.next_scene_id ++ "\x27."

/-- ThemeLoader.load_world on an already JSON-decoded world.json: parse the
scenes, validate every option target, validate the initial scene id (Python's
`not initial_id` also rejects a present-but-empty string), then build the
player with the documented stat defaults. -/
def load_world (cfg : WorldConfig) : Except String LoadedWorld :=
  let scenes := parseScenes cfg.scenes
  match findDangling scenes with
  | some d => .error (danglingMsg d.1 d.2)
  | none =>
    let initial_id := cfg.initial_scene_id
    if initial_id = none ∨ initial_id = some "" ∨
        ¬scenes.any (fun p => some p.1 == initial_id) then
      .error ("Invalid or missing initial_scene_id: \x27" ++
        (anchorStr initial_id) ++ "\x27")
    else
      let pd := cfg.player
      .ok { scenes := scenes,
            player :=
              { current_scene_id := anchorStr initial_id,
                inventory := [],
                hp := ((pd.map (fun p => p.hp)).join).getD 100,
                mana := ((pd.map (fun p => p.mana)).join).getD 50,
                bullet := ((pd.map (fun p => p.bullet)).join).getD 5,
                credits := ((pd.map (fun p => p.credits)).join).getD 50,
                extra := [] } }

/-! ### AI_model.parse_gm_response -/

/-- A JSON value, as produced by Python's `json.loads` (numbers restricted to
integers, which covers every payload the engine exchanges). -/
inductive JVal where
  | jnull
  | jbool (b : Bool)
  | jnum (n : Int)
  | jstr (s : String)
  | jarr (elems : List JVal)
  | jobj (fields : List (String × JVal))

/-- Python truthiness of a decoded JSON value. -/
def jTruthy : JVal → Bool
  | .jnull => false
  | .jbool b => b
  | .jnum n => n ≠ 0
  | .jstr s => s ≠ ""
  | .jarr xs => ¬xs.isEmpty
  | .jobj fs => ¬fs.isEmpty

/-- `data.get(key)` on a dict value: None (here `jnull`) when absent. -/
def jGet (fields : List (String × JVal)) (key : String) : JVal :=
  (fields.lookup key).getD .jnull

mutual
/-- Python `repr` of a decoded JSON value (string escaping inside reprs is not
reproduced; no claim depends on it). -/
def pyRepr : JVal → String
  | .jnull => "None"
  | .jbool b => if b then "True" else "False"
  | .jnum n => toString n
  | .jstr s => "\x27" ++ s ++ "\x27"
  | .jarr xs => "[" ++ pyReprList xs ++ "]"
  | .jobj fs => "\x7b" ++ pyReprFields fs ++ "\x7d"

def pyReprList : List JVal → String
  | [] => ""
  | [x] => pyRepr x
  | x :: rest => pyRepr x ++ ", " ++ pyReprList rest

def pyReprFields : List (String × JVal) → String
  | [] => ""
  | [f] => "\x27" ++ f.1 ++ "\x27: " ++ pyRepr f.2
  | f :: rest => "\x27" ++ f.1 ++ "\x27: " ++ pyRepr f.2 ++ ", " ++ pyReprFields rest
end

/-- Python `str` of a decoded JSON value. -/
def pyStr : JVal → String
  | .jstr s => s
  | v => pyRepr v

/-- The structured dict parse_gm_response returns. -/
structure GMResponse where
  story_text : JVal
  options : List String
  game_over : Bool
  ending_title : String
  ending_description : String
  stats : JVal

/-- The `while len(options) < 3 and not data.get("game_over")` padding loop. -/
def padOptions (opts : List String) (game_over_truthy : Bool) : List String :=
  if game_over_truthy then opts
  else opts ++ List.replicate (3 - opts.length) "Continue."

/-- AI_model.parse_gm_response.  `decoded` is what `json.loads` produced on the
brace-extracted text: `none` models a raised JSONDecodeError, which the
function catches and converts into the safe fallback structure.  A payload
that decodes to a non-dict value makes `data.get(...)` raise AttributeError,
which nothing catches (modelled as `Except.error`). -/
def parse_gm_response (raw_content : String) (decoded : Option JVal) :
    Except String GMResponse :=
  match decoded with
  | none =>
    .ok { story_text :=
            .jstr (if raw_content ≠ "" then raw_content.take 500
                   else "The story continues..."),
          options := ["Continue.", "Look around.", "Press on."],
          game_over := false, ending_title := "", ending_description := "",
          stats := .jnull }
  | some (.jobj data) =>
    let story_text :=
      if jTruthy (jGet data "story_text") then jGet data "story_text"
      else .jstr "The story continues..."
    let options :=
      match jGet data "options" with
      | .jarr xs => (xs.take 3).map pyStr
      | _ => ["Continue.", "Look around.", "Press on."]
    let options := padOptions options (jTruthy (jGet data "game_over"))
    .ok { story_text := story_text,
          options := options,
          game_over := jTruthy (jGet data "game_over"),
          ending_title :=
            if jTruthy (jGet data "ending_title") then pyStr (jGet data "ending_title")
            else "",
          ending_description :=
            if jTruthy (jGet data "ending_description") then
              pyStr (jGet data "ending_description")
            else "",
          stats := jGet data "stats" }
  | some v =>
    .error ("AttributeError: " ++ pyRepr v ++ " has no attribute get")

/-! ### Concrete fixtures (a small authored graph, as loaded from a theme, and
the session states the claim instances use) -/

def demoStart : Scene :=
  { id := "start", text := "You are at the start.", is_end := false,
    options := [{ id := 1, text := "go north", next_scene_id := "hall" }] }

def demoHall : Scene :=
  { id := "hall", text := "A hall.", is_end := false, options := [] }

def demoScenes : List (String × Scene) := [("start", demoStart), ("hall", demoHall)]

def demoPlayer : Player :=
  { current_scene_id := "start", inventory := [], hp := 100, mana := 50,
    bullet := 5, credits := 50, extra := [] }

def demoState : GMState :=
  { scenes := demoScenes, player := demoPlayer, history_window := [],
    snapshot := none, global_turn_count := 0, max_turns := 20,
    in_dynamic_mode := false, saved_target_scene_id := none,
    target_scene_text := none, log := [], notifications := [] }

def demoAI : AIScene :=
  { id := "gen_1", text := "Generated text.", is_end := false,
    options := [{ id := 1, text := "Continue.", next_scene_id := "dynamic_await" }],
    reached_target_plot := false, stat_changes := [] }

def c2State : GMState := { demoState with global_turn_count := 20 }

def c2Out : GMState :=
  { scenes := demoScenes ++
      [("gen_1", { id := "gen_1", text := "Generated text.", is_end := true,
                   options := [] })],
    player := { demoPlayer with current_scene_id := "gen_1" },
    history_window :=
      [{ action := "The temporal distortion forces an ending.",
         result := "Generated text." }],
    snapshot := some
      { hp := 100, mana := 50, bullet := 5, credits := 50, inventory := [],
        current_location := "gen_1",
        recent_history :=
          [{ action := "The temporal distortion forces an ending.",
             result := "Generated text." }],
        turn_count := 21 },
    global_turn_count := 21, max_turns := 20, in_dynamic_mode := true,
    saved_target_scene_id := some "start",
    target_scene_text := some "The story reaches its final conclusion.",
    log := [("AI_GM", "Generated text.")], notifications := [] }

def c3CexState : GMState :=
  { demoState with
      in_dynamic_mode := true, saved_target_scene_id := some "start" }

def c3CexAI : AIScene :=
  { demoAI with is_end := true, reached_target_plot := true }

def c3CexScene : Scene :=
  { id := "gen_1", text := "Generated text.", is_end := true,
    options := [{ id := 1, text := "Continue.", next_scene_id := "dynamic_await" }] }

def c3AI : AIScene :=
  { id := "gen_1", text := "Back on track.", is_end := false,
    options := [{ id := 1, text := "Return.", next_scene_id := "dynamic_await" },
                { id := 2, text := "March on.", next_scene_id := "somewhere" }],
    reached_target_plot := true, stat_changes := [] }

def c3OutScene : Scene :=
  { id := "gen_1", text := "Back on track.", is_end := false,
    options := [{ id := 1, text := "Return.", next_scene_id := "start" },
                { id := 2, text := "March on.", next_scene_id := "start" }] }

def c3Out : GMState :=
  { scenes := demoScenes ++ [("gen_1", c3OutScene)],
    player := { demoPlayer with current_scene_id := "gen_1" },
    history_window := [{ action := "Transition", result := "Back on track." }],
    snapshot := some
      { hp := 100, mana := 50, bullet := 5, credits := 50, inventory := [],
        current_location := "gen_1",
        recent_history := [{ action := "Transition", result := "Back on track." }],
        turn_count := 1 },
    global_turn_count := 1, max_turns := 20, in_dynamic_mode := false,
    saved_target_scene_id := some "start", target_scene_text := none,
    log := [("AI_GM", "Back on track.")], notifications := [] }

def c7Scene : Scene :=
  { id := "gen_1", text := "Generated text.", is_end := false,
    options := [{ id := 1, text := "Continue.", next_scene_id := "ai_sandbox_node" }] }

def c7Mid : GMState :=
  { scenes := demoScenes ++ [("gen_1", c7Scene)],
    player := { demoPlayer with current_scene_id := "gen_1" },
    history_window := [{ action := "dance", result := "Generated text." }],
    snapshot := some
      { hp := 100, mana := 50, bullet := 5, credits := 50, inventory := [],
        current_location := "gen_1",
        recent_history := [{ action := "dance", result := "Generated text." }],
        turn_count := 1 },
    global_turn_count := 1, max_turns := 20, in_dynamic_mode := true,
    saved_target_scene_id := some "start",
    target_scene_text := some "You are at the start.",
    log := [("AI_GM", "Generated text.")], notifications := [] }

def c8Cfg : WorldConfig :=
  { scenes := [("", { text := some "nowhere", is_end := none, options := [] })],
    initial_scene_id := some "", player := none }

def c8GoodCfg : WorldConfig :=
  { scenes :=
      [("start", { text := some "You are at the start.", is_end := none,
                   options := [{ id := 1, text := "go north", next_scene_id := "hall" }] }),
       ("hall", { text := some "A hall.", is_end := some false, options := [] })],
    initial_scene_id := some "start", player := none }

/-! ### Basic lemmas about the embedded operations -/

theorem lookupCons {α : Type} (k : String) (hd : String × α) (tl : List (String × α)) :
    List.lookup k (hd :: tl) = if k == hd.1 then some hd.2 else List.lookup k tl := by
  rcases hd with ⟨a, b⟩
  simp only [List.lookup]
  split <;> rename_i h <;> simp [h]

theorem lookup_none_keys (l : List (String × Int)) (k : String)
    (h : l.lookup k = none) : l.any (fun q => q.1 == k) = false := by
  induction l with
  | nil => rfl
  | cons hd tl ih =>
    rw [lookupCons] at h
    by_cases hk : k = hd.1
    · rw [if_pos (by simp [hk])] at h
      cases h
    · rw [if_neg (by simp [hk])] at h
      simp only [List.any_cons, Bool.or_eq_false_iff]
      exact ⟨by simp [Ne.symm hk], ih h⟩

theorem lookup_append_absent (l : List (String × Int)) (k : String) (v : Int)
    (h : l.lookup k = none) : (l ++ [(k, v)]).lookup k = some v := by
  induction l with
  | nil =>
    rw [List.nil_append, lookupCons]
    simp
  | cons hd tl ih =>
    rw [lookupCons] at h
    rw [List.cons_append, lookupCons]
    by_cases hk : k = hd.1
    · rw [if_pos (by simp [hk])] at h
      cases h
    · rw [if_neg (by simp [hk])] at h
      rw [if_neg (by simp [hk])]
      exact ih h

theorem dictLookup_insert (m : List (String × Scene)) (k : String) (v : Scene) :
    dictLookup (dictInsert m k v) k = some v := by
  unfold dictLookup dictInsert
  by_cases hmem : m.any (fun p => p.1 == k)
  · rw [if_pos hmem]
    induction m with
    | nil => simp at hmem
    | cons hd tl ih =>
      by_cases hk : hd.1 = k
      · simp only [List.map_cons]
        rw [lookupCons]
        simp [hk]
      · simp only [List.map_cons]
        rw [lookupCons]
        rw [show (if hd.1 == k then (k, v) else hd) = hd from if_neg (by simp [hk])]
        rw [if_neg (by simp [Ne.symm hk] : ¬(k == hd.1) = true)]
        exact ih (by simpa [hk] using hmem)
  · rw [if_neg hmem]
    induction m with
    | nil => rw [List.nil_append, lookupCons]; simp
    | cons hd tl ih =>
      have h1 : ¬hd.1 = k := by
        intro hh
        exact hmem (by simp [List.any_cons, hh])
      rw [List.cons_append, lookupCons, if_neg (by simp [Ne.symm h1])]
      exact ih (fun hh => hmem (by simp [List.any_cons]; right; simpa using hh))

theorem applyStat_scene_id (p : Player) (ns : List Notification) (stat : String)
    (delta : Int) : (applyStat p ns stat delta).1.current_scene_id = p.current_scene_id := by
  unfold applyStat Player.setStat
  repeat' split
  all_goals rfl

theorem applyEffectCore_scene_id (effect : List (String × Int)) (p : Player)
    (ns : List Notification) :
    (applyEffectCore p ns effect).1.current_scene_id = p.current_scene_id := by
  induction effect generalizing p ns with
  | nil => rfl
  | cons e rest ih =>
    unfold applyEffectCore
    simp only [List.foldl_cons]
    rw [show (applyStat p ns e.1 e.2) = ((applyStat p ns e.1 e.2).1, (applyStat p ns e.1 e.2).2) from rfl]
    exact (ih _ _).trans (applyStat_scene_id p ns e.1 e.2)

theorem run_mode_b_current (s : GMState) (ai : AIScene) (pin : Option String) :
    (run_mode_b s ai pin).1.player.current_scene_id = ai.id := by
  unfold run_mode_b
  dsimp only
  repeat' split
  all_goals rfl

theorem run_mode_b_counts (s : GMState) (ai : AIScene) (pin : Option String) :
    (run_mode_b s ai pin).1.global_turn_count = s.global_turn_count ∧
    (run_mode_b s ai pin).1.max_turns = s.max_turns := by
  unfold run_mode_b
  dsimp only
  repeat' split
  all_goals exact ⟨rfl, rfl⟩

/-- Once the turn budget is exhausted, Mode B stores a forced terminal scene
with no options under the generated id and moves the player there, whatever
the generation call produced. -/
theorem run_mode_b_budget (s : GMState) (ai : AIScene) (pin : Option String)
    (h : s.max_turns ≤ s.global_turn_count) :
    dictLookup (run_mode_b s ai pin).1.scenes ai.id =
      some { id := ai.id, text := ai.text, is_end := true, options := [] } := by
  unfold run_mode_b
  rw [if_pos (show s.global_turn_count ≥ s.max_turns from h)]
  by_cases hsc : ai.stat_changes ≠ [] <;> simp only [hsc, if_pos, if_neg, ite_true,
    ite_false, if_true, if_false, reduceIte] <;>
    exact dictLookup_insert _ _ _

/-- Below the budget, a non-terminal generation result with
`reached_target_plot` set has every option re-pointed at the saved anchor, and
dynamic mode is switched off. -/
theorem run_mode_b_reanchor (s : GMState) (ai : AIScene) (pin : Option String)
    (anchor : String)
    (h1 : ¬s.global_turn_count ≥ s.max_turns) (h2 : ai.is_end = false)
    (h3 : ai.reached_target_plot = true)
    (h4 : s.saved_target_scene_id = some anchor) :
    (run_mode_b s ai pin).1.in_dynamic_mode = false ∧
    dictLookup (run_mode_b s ai pin).1.scenes ai.id =
      some { id := ai.id, text := ai.text, is_end := false,
             options := ai.options.map
               (fun opt => { opt with next_scene_id := anchor }) } := by
  unfold run_mode_b
  rw [if_neg h1]
  dsimp only
  have hsv : (if ai.stat_changes ≠ [] then apply_effect s ai.stat_changes
      else s).saved_target_scene_id = some anchor := by
    split <;> exact h4
  rw [hsv]
  simp only [h2, h3, Bool.false_eq_true, Bool.true_eq_false, if_true, if_false,
    ite_true, ite_false, reduceIte, anchorStr]
  exact ⟨trivial, dictLookup_insert _ _ _⟩

theorem select_option_ok {s : GMState} {cid : Int} {s2 : GMState} {b : Bool}
    (h : select_option s cid = .ok (s2, b)) :
    s2.scenes = s.scenes ∧ s2.global_turn_count = s.global_turn_count ∧
    s2.max_turns = s.max_turns ∧ s2.in_dynamic_mode = s.in_dynamic_mode ∧
    s2.saved_target_scene_id = s.saved_target_scene_id ∧
    s2.player.current_scene_id = resolveChoice s cid := by
  unfold select_option at h
  split at h
  · simp at h
  · rename_i scene hl
    split at h
    · rename_i hf
      simp only [Except.ok.injEq, Prod.mk.injEq] at h
      obtain ⟨h1, _⟩ := h
      subst h1
      refine ⟨rfl, rfl, rfl, rfl, rfl, ?_⟩
      unfold resolveChoice
      rw [hl]
      simp [hf]
    · rename_i opt hf
      simp only [Except.ok.injEq, Prod.mk.injEq] at h
      obtain ⟨h1, _⟩ := h
      subst h1
      refine ⟨rfl, rfl, rfl, rfl, rfl, ?_⟩
      unfold resolveChoice
      rw [hl]
      simp [hf]

theorem apply_effect_proj (s : GMState) (effect : List (String × Int)) :
    (apply_effect s effect).scenes = s.scenes ∧
    (apply_effect s effect).player.current_scene_id = s.player.current_scene_id ∧
    (apply_effect s effect).history_window = s.history_window ∧
    (apply_effect s effect).snapshot = s.snapshot ∧
    (apply_effect s effect).global_turn_count = s.global_turn_count ∧
    (apply_effect s effect).max_turns = s.max_turns ∧
    (apply_effect s effect).in_dynamic_mode = s.in_dynamic_mode ∧
    (apply_effect s effect).saved_target_scene_id = s.saved_target_scene_id := by
  refine ⟨rfl, ?_, rfl, rfl, rfl, rfl, rfl, rfl⟩
  exact applyEffectCore_scene_id effect s.player s.notifications

theorem handle_events_proj (fired : List (List (String × Int) × String)) (s : GMState) :
    (handle_events s fired).1.scenes = s.scenes ∧
    (handle_events s fired).1.player.current_scene_id = s.player.current_scene_id ∧
    (handle_events s fired).1.global_turn_count = s.global_turn_count ∧
    (handle_events s fired).1.max_turns = s.max_turns ∧
    (handle_events s fired).1.in_dynamic_mode = s.in_dynamic_mode ∧
    (handle_events s fired).1.saved_target_scene_id = s.saved_target_scene_id := by
  unfold handle_events
  dsimp only
  induction fired generalizing s with
  | nil => exact ⟨rfl, rfl, rfl, rfl, rfl, rfl⟩
  | cons f rest ih =>
    simp only [List.foldl_cons]
    have h := apply_effect_proj s f.1
    have h2 := ih (apply_effect s f.1)
    exact ⟨h2.1.trans h.1, h2.2.1.trans h.2.1, h2.2.2.1.trans h.2.2.2.2.1,
           h2.2.2.2.1.trans h.2.2.2.2.2.1, h2.2.2.2.2.1.trans h.2.2.2.2.2.2.1,
           h2.2.2.2.2.2.trans h.2.2.2.2.2.2.2⟩

theorem run_mode_a_counts {s : GMState} {ai : AIScene}
    {fired : List (List (String × Int) × String)} {s' : GMState} {t : String}
    {ds : List String} (h : run_mode_a s ai fired = .ok (s', t, ds)) :
    s'.global_turn_count = s.global_turn_count ∧ s'.max_turns = s.max_turns := by
  unfold run_mode_a at h
  split at h
  · simp at h
  · rename_i scene hl
    split at h
    · simp only [Except.ok.injEq, Prod.mk.injEq] at h
      obtain ⟨h1, _⟩ := h
      subst h1
      exact (run_mode_b_counts _ ai _)
    · split at h
      · simp only [Except.ok.injEq, Prod.mk.injEq] at h
        obtain ⟨h1, _⟩ := h
        subst h1
        have hb := run_mode_b_counts ({ (handle_events s fired).1 with in_dynamic_mode := true }) ai
          (some ("The player reached the transition node: " ++ scene.text))
        have he := handle_events_proj fired s
        exact ⟨hb.1.trans he.2.2.1, hb.2.trans he.2.2.2.1⟩
      · simp only [Except.ok.injEq, Prod.mk.injEq] at h
        obtain ⟨h1, _⟩ := h
        subst h1
        have he := handle_events_proj fired s
        exact ⟨he.2.2.1, he.2.2.2.1⟩

theorem run_turn_dispatch_counts {s : GMState} {ai : AIScene}
    {fired : List (List (String × Int) × String)} {pin : Option String}
    {s' : GMState} {t : String} {ds : List String}
    (h : run_turn_dispatch s ai fired pin = .ok (s', t, ds)) :
    s'.global_turn_count = s.global_turn_count ∧ s'.max_turns = s.max_turns := by
  unfold run_turn_dispatch at h
  split at h
  · simp only [Except.ok.injEq, Prod.mk.injEq] at h
    obtain ⟨h1, _⟩ := h
    subst h1
    exact run_mode_b_counts s ai pin
  · exact run_mode_a_counts h

theorem run_turn_counts {s : GMState} {ai : AIScene}
    {fired : List (List (String × Int) × String)} {inp : Option String}
    {s' : GMState} {t : String} {ds : List String}
    (h : run_turn s ai fired inp = .ok (s', t, ds)) :
    s'.global_turn_count = s.global_turn_count + 1 ∧ s'.max_turns = s.max_turns := by
  unfold run_turn at h
  cases inp with
  | none =>
    dsimp only at h
    exact run_turn_dispatch_counts h
  | some str =>
    dsimp only at h
    split at h
    · exact run_turn_dispatch_counts h
    · split at h
      · split at h
        · simp at h
        · rename_i r hsel
          have hs2 := select_option_ok (show select_option _ _ = .ok (r.1, r.2) from hsel)
          have hd := run_turn_dispatch_counts h
          exact ⟨hd.1.trans hs2.2.1, hd.2.trans hs2.2.2.1⟩
      · split at h
        · split at h
          · simp at h
          · simp only [Except.ok.injEq, Prod.mk.injEq] at h
            obtain ⟨h1, _⟩ := h
            subst h1
            exact run_mode_b_counts _ ai _
        · simp only [Except.ok.injEq, Prod.mk.injEq] at h
          obtain ⟨h1, _⟩ := h
          subst h1
          exact run_mode_b_counts _ ai _

theorem run_mode_b_budget_state (s : GMState) (ai : AIScene) (pin : Option String)
    (h : s.max_turns ≤ s.global_turn_count) :
    ∃ sc, dictLookup (run_mode_b s ai pin).1.scenes
        (run_mode_b s ai pin).1.player.current_scene_id = some sc ∧
      sc.is_end = true ∧ sc.options = [] := by
  refine ⟨{ id := ai.id, text := ai.text, is_end := true, options := [] }, ?_, rfl, rfl⟩
  rw [run_mode_b_current]
  exact run_mode_b_budget s ai pin h

/-! ### Claim theorems -/

/-- C1, counterexample to the claim as stated: a `run_turn` call whose input
"2" is an option id not present in the current scene's option list still
increments the session turn counter (it goes from 0 to 1), although the call
performs neither a graph transition (the player stays at "start") nor a
generation delegation (dynamic mode stays off and no generated scene is
inserted). -/
theorem run_turn_invalid_option_increments :
    run_turn demoState demoAI [] (some "2") =
      .ok ({ demoState with global_turn_count := 1 }, "You are at the start.", []) ∧
    demoStart.options.all (fun opt => opt.id != 2) = true ∧
    demoState.global_turn_count = 0 ∧
    ({ demoState with global_turn_count := 1 } : GMState).player.current_scene_id =
      demoState.player.current_scene_id ∧
    ({ demoState with global_turn_count := 1 } : GMState).in_dynamic_mode = false ∧
    ({ demoState with global_turn_count := 1 } : GMState).global_turn_count ≠
      demoState.global_turn_count := by
  refine ⟨rfl, rfl, rfl, rfl, rfl, by decide⟩

/-- C1 (amended): the session turn counter is incremented by exactly 1 on
every `run_turn` call that completes, whether or not the input was a valid
option id and whether or not the turn delegated to generation; in particular
it is monotonically non-decreasing across calls. -/
theorem run_turn_always_increments (s : GMState) (ai : AIScene)
    (fired : List (List (String × Int) × String)) (inp : Option String)
    (s' : GMState) (t : String) (ds : List String)
    (h : run_turn s ai fired inp = .ok (s', t, ds)) :
    s'.global_turn_count = s.global_turn_count + 1 ∧
    s.global_turn_count ≤ s'.global_turn_count :=
  ⟨(run_turn_counts h).1, by rw [(run_turn_counts h).1]; exact Nat.le_succ _⟩

theorem run_turn_always_increments_witness :
    ({ demoState with global_turn_count := 1 } : GMState).global_turn_count =
      demoState.global_turn_count + 1 ∧
    demoState.global_turn_count ≤
      ({ demoState with global_turn_count := 1 } : GMState).global_turn_count :=
  run_turn_always_increments demoState demoAI [] (some "7")
    { demoState with global_turn_count := 1 } "You are at the start." [] rfl

/-- C2 (confirmed): in a session state whose turn counter has reached the
configured maximum, every completing `run_turn` whose current scene — the
scene the turn resolves at after input processing — is not already terminal
leaves the player on a scene with `is_end = true` and an empty option list,
regardless of what the generation call returned. -/
theorem run_turn_budget_forces_end (s : GMState) (ai : AIScene)
    (fired : List (List (String × Int) × String)) (inp : Option String)
    (s' : GMState) (t : String) (ds : List String)
    (hmax : s.max_turns ≤ s.global_turn_count)
    (hscene : ∀ sc, dictLookup s.scenes (resolveLocation s inp) = some sc →
      sc.is_end = false)
    (h : run_turn s ai fired inp = .ok (s', t, ds)) :
    ∃ sc, dictLookup s'.scenes s'.player.current_scene_id = some sc ∧
      sc.is_end = true ∧ sc.options = [] := by
  have hmax1 : s.max_turns ≤ s.global_turn_count + 1 := Nat.le_succ_of_le hmax
  unfold run_turn at h
  cases inp with
  | none =>
    dsimp only at h
    unfold run_turn_dispatch at h
    split at h
    · simp only [Except.ok.injEq, Prod.mk.injEq] at h
      obtain ⟨h1, _, _⟩ := h
      subst h1
      exact run_mode_b_budget_state _ ai _ hmax1
    · unfold run_mode_a at h
      split at h
      · simp at h
      · rename_i sc hl
        have hsc : sc.is_end = false := hscene sc hl
        split at h
        · simp only [Except.ok.injEq, Prod.mk.injEq] at h
          obtain ⟨h1, _, _⟩ := h
          subst h1
          exact run_mode_b_budget_state _ ai _ hmax1
        · rename_i hcond
          exact absurd ⟨hmax1, by simp [hsc]⟩ hcond
  | some str =>
    dsimp only at h
    split at h
    · rename_i hstr
      subst hstr
      unfold run_turn_dispatch at h
      split at h
      · simp only [Except.ok.injEq, Prod.mk.injEq] at h
        obtain ⟨h1, _, _⟩ := h
        subst h1
        exact run_mode_b_budget_state _ ai _ hmax1
      · unfold run_mode_a at h
        split at h
        · simp at h
        · rename_i sc hl
          have hsc : sc.is_end = false := hscene sc hl
          split at h
          · simp only [Except.ok.injEq, Prod.mk.injEq] at h
            obtain ⟨h1, _, _⟩ := h
            subst h1
            exact run_mode_b_budget_state _ ai _ hmax1
          · rename_i hcond
            exact absurd ⟨hmax1, by simp [hsc]⟩ hcond
    · rename_i hne
      split at h
      · rename_i cid hpi
        split at h
        · simp at h
        · rename_i r hsel
          have hs2 := select_option_ok (show select_option _ _ = .ok (r.1, r.2) from hsel)
          have hres : resolveLocation s (some str) = resolveChoice s cid := by
            unfold resolveLocation
            dsimp only
            rw [if_neg hne, hpi]
          unfold run_turn_dispatch at h
          split at h
          · simp only [Except.ok.injEq, Prod.mk.injEq] at h
            obtain ⟨h1, _, _⟩ := h
            subst h1
            refine run_mode_b_budget_state _ ai _ ?_
            rw [hs2.2.2.1, hs2.2.1]
            exact hmax1
          · unfold run_mode_a at h
            split at h
            · simp at h
            · rename_i sc hl
              rw [hs2.1, hs2.2.2.2.2.2] at hl
              have hsc : sc.is_end = false := by
                refine hscene sc ?_
                rw [hres]
                exact hl
              split at h
              · simp only [Except.ok.injEq, Prod.mk.injEq] at h
                obtain ⟨h1, _, _⟩ := h
                subst h1
                refine run_mode_b_budget_state _ ai _ ?_
                rw [hs2.2.2.1, hs2.2.1]
                exact hmax1
              · rename_i hcond
                refine absurd ⟨?_, by simp [hsc]⟩ hcond
                rw [hs2.2.2.1, hs2.2.1]
                exact hmax1
      · split at h
        · split at h
          · simp at h
          · simp only [Except.ok.injEq, Prod.mk.injEq] at h
            obtain ⟨h1, _, _⟩ := h
            subst h1
            exact run_mode_b_budget_state _ ai _ hmax1
        · simp only [Except.ok.injEq, Prod.mk.injEq] at h
          obtain ⟨h1, _, _⟩ := h
          subst h1
          exact run_mode_b_budget_state _ ai _ hmax1

theorem run_turn_budget_forces_end_witness :
    ∃ sc, dictLookup c2Out.scenes c2Out.player.current_scene_id = some sc ∧
      sc.is_end = true ∧ sc.options = [] :=
  run_turn_budget_forces_end c2State demoAI [] none c2Out "Generated text." []
    (by decide)
    (fun sc hsc => by
      rw [show dictLookup c2State.scenes (resolveLocation c2State none) =
        some demoStart from rfl] at hsc
      injection hsc with h3
      subst h3
      rfl)
    rfl

theorem run_mode_b_reanchor_state (s : GMState) (ai : AIScene) (pin : Option String)
    (anchor : String)
    (h1 : ¬s.global_turn_count ≥ s.max_turns) (h2 : ai.is_end = false)
    (h3 : ai.reached_target_plot = true)
    (h4 : s.saved_target_scene_id = some anchor) :
    (run_mode_b s ai pin).1.in_dynamic_mode = false ∧
    ∃ sc, dictLookup (run_mode_b s ai pin).1.scenes
        (run_mode_b s ai pin).1.player.current_scene_id = some sc ∧
      ∀ opt ∈ sc.options, opt.next_scene_id = anchor := by
  obtain ⟨hm, hd⟩ := run_mode_b_reanchor s ai pin anchor h1 h2 h3 h4
  refine ⟨hm, ?_⟩
  refine ⟨{ id := ai.id,
            text := ai.text,
            is_end := false,
            options := ai.options.map
              (fun opt => { opt with next_scene_id := anchor }) }, ?_, ?_⟩
  · rw [run_mode_b_current]
    exact hd
  · intro opt hopt
    simp only [List.mem_map] at hopt
    obtain ⟨o, _, rfl⟩ := hopt
    rfl

/-- C3, counterexample to the claim as stated: a generation result absorbed in
Generated mode with `reached_target_plot = true` but `is_end = true` is stored
with its options untouched (an option still points at "dynamic_await", not at
the recorded anchor "start"), and the session stays in Generated mode — the
terminal flag takes precedence over re-anchoring. -/
theorem reanchor_end_precedence :
    (run_turn c3CexState c3CexAI [] none).map
      (fun r => (r.1.in_dynamic_mode,
        dictLookup r.1.scenes r.1.player.current_scene_id)) =
      .ok (true, some c3CexScene) ∧
    c3CexAI.reached_target_plot = true ∧
    c3CexState.in_dynamic_mode = true ∧
    c3CexState.saved_target_scene_id = some "start" ∧
    c3CexScene.options.map (fun opt => opt.next_scene_id) = ["dynamic_await"] ∧
    "dynamic_await" ≠ "start" := by
  refine ⟨rfl, rfl, rfl, rfl, rfl, ?_⟩
  decide

/-- C3 (amended): a generation result absorbed in Generated mode with
`reached_target_plot = true` and `is_end = false`, while the incremented turn
counter is still below the maximum (so budget forcing does not overwrite the
result), yields a scene all of whose options point at the anchor recorded when
Generated mode was entered, and the session leaves Generated mode so the next
turn resolves via the authored graph. -/
theorem run_turn_reanchor (s : GMState) (ai : AIScene)
    (fired : List (List (String × Int) × String)) (inp : Option String)
    (s' : GMState) (t : String) (ds : List String) (anchor : String)
    (hdyn : s.in_dynamic_mode = true)
    (hsaved : s.saved_target_scene_id = some anchor)
    (hbudget : s.global_turn_count + 1 < s.max_turns)
    (hend : ai.is_end = false)
    (hreach : ai.reached_target_plot = true)
    (h : run_turn s ai fired inp = .ok (s', t, ds)) :
    s'.in_dynamic_mode = false ∧
    ∃ sc, dictLookup s'.scenes s'.player.current_scene_id = some sc ∧
      ∀ opt ∈ sc.options, opt.next_scene_id = anchor := by
  have hnb : ¬s.global_turn_count + 1 ≥ s.max_turns := Nat.not_le.mpr hbudget
  unfold run_turn at h
  cases inp with
  | none =>
    dsimp only at h
    unfold run_turn_dispatch at h
    split at h
    · simp only [Except.ok.injEq, Prod.mk.injEq] at h
      obtain ⟨h1, _, _⟩ := h
      subst h1
      exact run_mode_b_reanchor_state _ ai _ anchor hnb hend hreach hsaved
    · rename_i hcond
      exact absurd hdyn hcond
  | some str =>
    dsimp only at h
    split at h
    · unfold run_turn_dispatch at h
      split at h
      · simp only [Except.ok.injEq, Prod.mk.injEq] at h
        obtain ⟨h1, _, _⟩ := h
        subst h1
        exact run_mode_b_reanchor_state _ ai _ anchor hnb hend hreach hsaved
      · rename_i hcond
        exact absurd hdyn hcond
    · split at h
      · rename_i cid hpi
        split at h
        · simp at h
        · rename_i r hsel
          have hs2 := select_option_ok (show select_option _ _ = .ok (r.1, r.2) from hsel)
          unfold run_turn_dispatch at h
          split at h
          · simp only [Except.ok.injEq, Prod.mk.injEq] at h
            obtain ⟨h1, _, _⟩ := h
            subst h1
            refine run_mode_b_reanchor_state _ ai _ anchor ?_ hend hreach ?_
            · rw [hs2.2.1, hs2.2.2.1]
              exact hnb
            · rw [hs2.2.2.2.2.1]
              exact hsaved
          · rename_i hcond
            rw [hs2.2.2.2.1] at hcond
            exact absurd hdyn hcond
      · simp only [Except.ok.injEq, Prod.mk.injEq] at h
        obtain ⟨h1, _, _⟩ := h
        subst h1
        exact run_mode_b_reanchor_state _ ai _ anchor hnb hend hreach hsaved

theorem run_turn_reanchor_witness :
    c3Out.in_dynamic_mode = false ∧
    ∃ sc, dictLookup c3Out.scenes c3Out.player.current_scene_id = some sc ∧
      ∀ opt ∈ sc.options, opt.next_scene_id = "start" :=
  run_turn_reanchor c3CexState c3AI [] none c3Out
    "Back on track." [] "start" rfl rfl (by decide) rfl rfl rfl

theorem clamp01 (x : Int) : 0 ≤ max 0 (min 100 x) ∧ max 0 (min 100 x) ≤ 100 :=
  ⟨le_max_left 0 _, max_le (by norm_num) (min_le_left _ _)⟩

theorem applyStat_bounds (p : Player) (ns : List Notification) (stat : String)
    (delta : Int) :
    ((applyStat p ns stat delta).1.hp = p.hp ∨
      (0 ≤ (applyStat p ns stat delta).1.hp ∧ (applyStat p ns stat delta).1.hp ≤ 100)) ∧
    ((applyStat p ns stat delta).1.mana = p.mana ∨ 0 ≤ (applyStat p ns stat delta).1.mana) ∧
    ((applyStat p ns stat delta).1.bullet = p.bullet ∨ 0 ≤ (applyStat p ns stat delta).1.bullet) ∧
    ((applyStat p ns stat delta).1.credits = p.credits ∨ 0 ≤ (applyStat p ns stat delta).1.credits) := by
  unfold applyStat
  split
  · unfold Player.setStat
    by_cases h1 : stat = "hp"
    · simp [h1, le_max_iff, max_le_iff, min_le_iff]
    · by_cases h2 : stat = "mana"
      · simp [h1, h2, le_max_iff]
      · by_cases h3 : stat = "bullet"
        · simp [h1, h2, h3, le_max_iff]
        · by_cases h4 : stat = "credits"
          · simp [h1, h2, h3, h4, le_max_iff]
          · repeat' split
            all_goals simp [h1, h2, h3, h4]
  · simp

theorem applyEffectCore_bounds (effect : List (String × Int)) (p : Player)
    (ns : List Notification) :
    ((applyEffectCore p ns effect).1.hp = p.hp ∨
      (0 ≤ (applyEffectCore p ns effect).1.hp ∧ (applyEffectCore p ns effect).1.hp ≤ 100)) ∧
    ((applyEffectCore p ns effect).1.mana = p.mana ∨ 0 ≤ (applyEffectCore p ns effect).1.mana) ∧
    ((applyEffectCore p ns effect).1.bullet = p.bullet ∨ 0 ≤ (applyEffectCore p ns effect).1.bullet) ∧
    ((applyEffectCore p ns effect).1.credits = p.credits ∨ 0 ≤ (applyEffectCore p ns effect).1.credits) := by
  induction effect generalizing p ns with
  | nil => exact ⟨Or.inl rfl, Or.inl rfl, Or.inl rfl, Or.inl rfl⟩
  | cons e rest ih =>
    have h1 := applyStat_bounds p ns e.1 e.2
    have h2 := ih (applyStat p ns e.1 e.2).1 (applyStat p ns e.1 e.2).2
    have hgoal : applyEffectCore p ns (e :: rest) =
        applyEffectCore (applyStat p ns e.1 e.2).1 (applyStat p ns e.1 e.2).2 rest := by
      unfold applyEffectCore
      simp only [List.foldl_cons]
    rw [hgoal]
    refine ⟨?_, ?_, ?_, ?_⟩
    · rcases h2.1 with he | hb
      · rcases h1.1 with he2 | hb2
        · exact Or.inl (he.trans he2)
        · exact Or.inr (he ▸ hb2)
      · exact Or.inr hb
    · rcases h2.2.1 with he | hb
      · rcases h1.2.1 with he2 | hb2
        · exact Or.inl (he.trans he2)
        · exact Or.inr (he ▸ hb2)
      · exact Or.inr hb
    · rcases h2.2.2.1 with he | hb
      · rcases h1.2.2.1 with he2 | hb2
        · exact Or.inl (he.trans he2)
        · exact Or.inr (he ▸ hb2)
      · exact Or.inr hb
    · rcases h2.2.2.2 with he | hb
      · rcases h1.2.2.2 with he2 | hb2
        · exact Or.inl (he.trans he2)
        · exact Or.inr (he ▸ hb2)
      · exact Or.inr hb

/-- C5, counterexample to the claim as stated: a starting player whose hp is
already 150 (the loader accepts any configured stat value) keeps hp = 150
after an `_apply_effect` call whose map touches only mana — no clamping is
applied to a stat the map does not change, so the resulting hp is not in
[0, 100]. -/
theorem apply_effect_out_of_range_start :
    (apply_effect { demoState with player := { demoPlayer with hp := 150 } }
      [("mana", 1)]).player.hp = 150 ∧
    ¬((150 : Int) ≤ 100) := by
  refine ⟨rfl, ?_⟩
  decide

/-- C5 (amended): after `_apply_effect`, each of hp, mana, bullet and credits
either still equals its starting value (when the map applied no non-zero delta
to it) or has been clamped into range — hp into [0, 100], the others to ≥ 0.
In particular, from a starting state already inside those bounds, every stat
is inside those bounds after any effect map, regardless of delta magnitude or
sign. -/
theorem apply_effect_clamped_or_unchanged (s : GMState) (effect : List (String × Int)) :
    ((apply_effect s effect).player.hp = s.player.hp ∨
      (0 ≤ (apply_effect s effect).player.hp ∧ (apply_effect s effect).player.hp ≤ 100)) ∧
    ((apply_effect s effect).player.mana = s.player.mana ∨
      0 ≤ (apply_effect s effect).player.mana) ∧
    ((apply_effect s effect).player.bullet = s.player.bullet ∨
      0 ≤ (apply_effect s effect).player.bullet) ∧
    ((apply_effect s effect).player.credits = s.player.credits ∨
      0 ≤ (apply_effect s effect).player.credits) :=
  applyEffectCore_bounds effect s.player s.notifications

/-- C6 (confirmed): `_select_option` with a choice id that matches no option of
the current scene returns False and leaves the whole session state — player
location, history window, durable snapshot and everything else — exactly as it
was. -/
theorem select_option_invalid_unchanged (s : GMState) (cid : Int) (scene : Scene)
    (hl : dictLookup s.scenes s.player.current_scene_id = some scene)
    (hnone : ∀ opt ∈ scene.options, opt.id ≠ cid) :
    select_option s cid = .ok (s, false) := by
  unfold select_option
  rw [hl]
  have hf : scene.options.find? (fun opt => opt.id == cid) = none := by
    rw [List.find?_eq_none]
    intro opt hopt
    simp [hnone opt hopt]
  simp [hf]

theorem select_option_invalid_unchanged_witness :
    select_option demoState 2 = .ok (demoState, false) :=
  select_option_invalid_unchanged demoState 2 demoStart rfl (by decide)

/-- C7, counterexample to the claim as stated: the session that starts on the
authored demo graph and submits the free-form input "dance" absorbs a
generated scene whose only option (after the `dynamic_await` rewrite — the
sole processing the options receive) targets "ai_sandbox_node", an id with no
scene in the collection; following that option on the next turn moves the
player to "ai_sandbox_node", so at the moment the option is followed its
target does not resolve, and the current scene id no longer dereferences. -/
theorem generated_target_missing :
    run_turn demoState demoAI [] (some "dance") =
      .ok (c7Mid, "Generated text.", []) ∧
    dictLookup c7Mid.scenes c7Mid.player.current_scene_id = some c7Scene ∧
    (select_option c7Mid 1).map
      (fun r => (r.1.player.current_scene_id,
        dictLookup r.1.scenes r.1.player.current_scene_id, r.2)) =
      .ok ("ai_sandbox_node", none, true) ∧
    dictLookup c7Mid.scenes "ai_sandbox_node" = none :=
  ⟨rfl, rfl, rfl, rfl⟩

/-- C7 (amended): authored scenes are validated eagerly at load, but generated
scenes are not validated on receipt — their options only have the
"dynamic_await" placeholder renamed to "ai_sandbox_node", itself an id that
names no scene — and `_select_option` follows an option without checking that
its target exists: it sets the player's location to the option's
`next_scene_id` whether or not that id is present in the scene collection
(later turns recover only because Generated mode replaces the current scene
wholesale). -/
theorem select_option_follows_unvalidated (s : GMState) (cid : Int)
    (scene : Scene) (opt : SceneOption)
    (hl : dictLookup s.scenes s.player.current_scene_id = some scene)
    (hf : scene.options.find? (fun o => o.id == cid) = some opt) :
    ∃ s2, select_option s cid = .ok (s2, true) ∧
      s2.player.current_scene_id = opt.next_scene_id ∧
      s2.scenes = s.scenes := by
  unfold select_option
  rw [hl]
  simp only [hf]
  exact ⟨_, rfl, rfl, rfl⟩

theorem select_option_follows_unvalidated_witness :
    ∃ s2, select_option c7Mid 1 = .ok (s2, true) ∧
      s2.player.current_scene_id = "ai_sandbox_node" ∧
      s2.scenes = c7Mid.scenes :=
  select_option_follows_unvalidated c7Mid 1 c7Scene
    { id := 1, text := "Continue.", next_scene_id := "ai_sandbox_node" } rfl rfl

theorem findDangling_some {scenes : List (String × Scene)} {sid : String}
    {opt : SceneOption} (h : findDangling scenes = some (sid, opt)) :
    (∃ e ∈ scenes, e.1 = sid ∧ opt ∈ e.2.options) ∧
    scenes.any (fun p => p.1 == opt.next_scene_id) = false := by
  unfold findDangling at h
  obtain ⟨e, he, hF⟩ := List.exists_of_findSome?_eq_some h
  cases hf : e.2.options.find? (fun o => !scenes.any (fun p => p.1 == o.next_scene_id)) with
  | none => rw [hf] at hF; cases hF
  | some o =>
    rw [hf] at hF
    simp only [Option.map_some', Option.some.injEq, Prod.mk.injEq] at hF
    obtain ⟨h1, h2⟩ := hF
    subst h2
    have hmem := List.mem_of_find?_eq_some hf
    have hpred := List.find?_some hf
    exact ⟨⟨e, he, h1, hmem⟩, by simpa using hpred⟩

theorem findDangling_none_iff (scenes : List (String × Scene)) :
    findDangling scenes = none ↔
    ∀ e ∈ scenes, ∀ opt ∈ e.2.options,
      scenes.any (fun p => p.1 == opt.next_scene_id) = true := by
  unfold findDangling
  rw [List.findSome?_eq_none_iff]
  constructor
  · intro h e he opt hopt
    have h2 := h e he
    rw [Option.map_eq_none', List.find?_eq_none] at h2
    have h3 := h2 opt hopt
    simpa using h3
  · intro h e he
    rw [Option.map_eq_none', List.find?_eq_none]
    intro opt hopt
    simpa using h e he opt hopt

/-- C8, counterexample to the claim as stated: a config with a single scene
whose id is the empty string and `initial_scene_id = ""` has no dangling
option and its initial id names an existing scene, yet `load_world` fails —
Python's `not initial_id` treats a present-but-empty initial id as missing. -/
theorem load_world_empty_initial :
    load_world c8Cfg = .error "Invalid or missing initial_scene_id: \x27\x27" ∧
    c8Cfg.initial_scene_id = some "" ∧
    (parseScenes c8Cfg.scenes).any (fun p => p.1 == "") = true ∧
    findDangling (parseScenes c8Cfg.scenes) = none :=
  ⟨rfl, rfl, rfl, rfl⟩

/-- C8 (amended): load fails as a whole on every violation — the first
dangling option produces a ValueError naming the offending scene and option,
and a missing, empty, or unresolvable `initial_scene_id` produces a ValueError
— and no partial graph is exposed; conversely a config with no dangling
option whose initial id is a NON-EMPTY string naming an existing scene loads
successfully, exposing exactly the parsed graph, in which every option target
resolves (Python's falsiness test additionally rejects an empty-string initial
id that does name a scene). -/
theorem load_world_validates (cfg : WorldConfig) :
    (∀ sid opt, findDangling (parseScenes cfg.scenes) = some (sid, opt) →
      load_world cfg = .error (danglingMsg sid opt) ∧
      (∃ e ∈ parseScenes cfg.scenes, e.1 = sid ∧ opt ∈ e.2.options) ∧
      (parseScenes cfg.scenes).any (fun p => p.1 == opt.next_scene_id) = false) ∧
    (findDangling (parseScenes cfg.scenes) = none ↔
      ∀ e ∈ parseScenes cfg.scenes, ∀ opt ∈ e.2.options,
        (parseScenes cfg.scenes).any (fun p => p.1 == opt.next_scene_id) = true) ∧
    ((cfg.initial_scene_id = none ∨ cfg.initial_scene_id = some "" ∨
        ¬(parseScenes cfg.scenes).any (fun p => some p.1 == cfg.initial_scene_id) = true) →
      findDangling (parseScenes cfg.scenes) = none →
      load_world cfg = .error ("Invalid or missing initial_scene_id: \x27" ++
        anchorStr cfg.initial_scene_id ++ "\x27")) ∧
    (∀ i, findDangling (parseScenes cfg.scenes) = none →
      cfg.initial_scene_id = some i → i ≠ "" →
      (parseScenes cfg.scenes).any (fun p => some p.1 == cfg.initial_scene_id) = true →
      ∃ w, load_world cfg = .ok w ∧ w.scenes = parseScenes cfg.scenes ∧
        (∀ e ∈ w.scenes, ∀ opt ∈ e.2.options,
          w.scenes.any (fun p => p.1 == opt.next_scene_id) = true)) := by
  refine ⟨?_, findDangling_none_iff _, ?_, ?_⟩
  · intro sid opt hd
    have hs := findDangling_some hd
    refine ⟨?_, hs.1, hs.2⟩
    unfold load_world
    dsimp only
    rw [hd]
  · intro hbad hnone
    unfold load_world
    dsimp only
    rw [hnone]
    dsimp only
    rw [if_pos hbad]
  · intro i hnone hinit hne hany
    unfold load_world
    dsimp only
    rw [hnone]
    dsimp only
    rw [if_neg ?_]
    · exact ⟨_, rfl, rfl, (findDangling_none_iff _).mp hnone⟩
    · push_neg
      refine ⟨by simp [hinit], by simp [hinit, hne], by simp [hany]⟩

theorem load_world_validates_witness :
    ∃ w, load_world c8GoodCfg = .ok w ∧ w.scenes = parseScenes c8GoodCfg.scenes ∧
      (∀ e ∈ w.scenes, ∀ opt ∈ e.2.options,
        w.scenes.any (fun p => p.1 == opt.next_scene_id) = true) :=
  (load_world_validates c8GoodCfg).2.2.2 "start" rfl rfl (by decide) rfl

/-- C10 (confirmed, implicit behaviour): `_apply_effect` never rejects an
unrecognized stat name — a non-zero delta under a key that is no existing
player attribute completes without error, reads a default current value of 0
(via `getattr(player, stat, 0)`), stores `max(0, delta)` as a newly created
attribute on the player, and still fires the notification hook for it, with
the default white colour. -/
theorem apply_effect_unknown_stat (s : GMState) (stat : String) (delta : Int)
    (h1 : stat ≠ "hp") (h2 : stat ≠ "mana") (h3 : stat ≠ "bullet")
    (h4 : stat ≠ "credits") (hnew : s.player.extra.lookup stat = none)
    (hdz : delta ≠ 0) :
    (apply_effect s [(stat, delta)]).player.getStat stat = some (max 0 delta) ∧
    (apply_effect s [(stat, delta)]).notifications = s.notifications ++
      [{ text := (if delta > 0 then "+" else "") ++ toString delta ++ " " ++
           pyCapitalize stat,
         color := (255, 255, 255) }] := by
  have hany := lookup_none_keys _ _ hnew
  unfold apply_effect applyEffectCore
  simp only [List.foldl_cons, List.foldl_nil]
  unfold applyStat
  rw [if_pos hdz]
  unfold Player.getStat Player.setStat
  simp only [if_neg h1, if_neg h2, if_neg h3, if_neg h4, hnew, Option.getD_none,
    hany, Bool.false_eq_true, if_false, ite_false, reduceIte, zero_add]
  constructor
  · exact lookup_append_absent _ _ _ hnew
  · unfold statColor
    simp only [if_neg h1, if_neg h2, if_neg h3, if_neg h4]

theorem apply_effect_unknown_stat_witness :
    (apply_effect demoState [("stamina", -7)]).player.getStat "stamina" =
      some (max 0 (-7)) ∧
    (apply_effect demoState [("stamina", -7)]).notifications =
      demoState.notifications ++
      [{ text := (if (-7 : Int) > 0 then "+" else "") ++ toString (-7 : Int) ++
           " " ++ pyCapitalize "stamina",
         color := (255, 255, 255) }] :=
  apply_effect_unknown_stat demoState "stamina" (-7) (by decide) (by decide)
    (by decide) (by decide) rfl (by decide)

theorem padOptions_length (opts : List String) (h : opts.length ≤ 3) :
    (padOptions opts false).length = 3 := by
  unfold padOptions
  simp only [Bool.false_eq_true, if_false, ite_false, reduceIte,
    List.length_append, List.length_replicate]
  omega

set_option maxRecDepth 4000 in
/-- C4, counterexample to the claim as stated: an unparsable payload is
replaced by a fallback carrying THREE looping options ("Continue.", "Look
around.", "Press on."), not two; and a payload that parses to a JSON value
that is not an object (here the array [1, 2]) raises an uncaught
AttributeError inside parse_gm_response instead of being converted to the
fallback. -/
theorem parse_gm_fallback_shape :
    (parse_gm_response "garbage" none).map (fun r => (r.options, r.game_over)) =
      .ok (["Continue.", "Look around.", "Press on."], false) ∧
    (parse_gm_response "garbage" none).map (fun r => r.options.length) ≠ .ok 2 ∧
    parse_gm_response "[1, 2]" (some (.jarr [.jnum 1, .jnum 2])) =
      .error "AttributeError: [1, 2] has no attribute get" := by
  refine ⟨rfl, ?_, rfl⟩
  intro hc
  simp only [Except.map, Except.ok.injEq] at hc
  cases hc

/-- C4 (amended): a payload whose JSON decode fails is replaced — without any
exception — by a fixed safe response with three looping options and
`game_over = false`; a payload that decodes to a JSON object is repaired
field-wise, always yielding a structured response whose options list has
exactly 3 entries whenever the response is not an end state, and whose options
are the three fixed safe strings whenever the payload's `options` field is not
an array.  (A payload decoding to a non-object value escapes this containment:
see the counterexample.) -/
theorem parse_gm_response_contained (raw : String) (decoded : Option JVal) :
    (decoded = none →
      parse_gm_response raw decoded = .ok
        { story_text := .jstr (if raw ≠ "" then raw.take 500
            else "The story continues..."),
          options := ["Continue.", "Look around.", "Press on."],
          game_over := false, ending_title := "", ending_description := "",
          stats := .jnull }) ∧
    (∀ fields, decoded = some (.jobj fields) →
      ∃ r, parse_gm_response raw decoded = .ok r ∧
        (r.game_over = false → r.options.length = 3) ∧
        ((∀ xs, jGet fields "options" ≠ .jarr xs) →
          r.options = ["Continue.", "Look around.", "Press on."])) := by
  constructor
  · intro hd
    subst hd
    rfl
  · intro fields hd
    subst hd
    unfold parse_gm_response
    dsimp only
    refine ⟨_, rfl, ?_, ?_⟩
    · intro hgo
      dsimp only at hgo
      rw [hgo]
      apply padOptions_length
      cases harr : jGet fields "options" <;> simp [harr]
    · intro hnoarr
      dsimp only
      cases harr : jGet fields "options" <;>
        first
        | (exact absurd harr (hnoarr _))
        | (unfold padOptions
           split <;> simp [harr])

theorem parse_gm_response_contained_witness :
    parse_gm_response "oops" none = .ok
      { story_text := .jstr (if ("oops" : String) ≠ "" then ("oops" : String).take 500
          else "The story continues..."),
        options := ["Continue.", "Look around.", "Press on."],
        game_over := false, ending_title := "", ending_description := "",
        stats := .jnull } ∧
    (∃ r, parse_gm_response "x" (some (.jobj [("options", .jstr "nope")])) =
        .ok r ∧
      (r.game_over = false → r.options.length = 3) ∧
      ((∀ xs, jGet [("options", .jstr "nope")] "options" ≠ .jarr xs) →
        r.options = ["Continue.", "Look around.", "Press on."])) :=
  ⟨(parse_gm_response_contained "oops" none).1 rfl,
   (parse_gm_response_contained "x" (some (.jobj [("options", .jstr "nope")]))).2
     [("options", .jstr "nope")] rfl⟩

/-- C9: in the literal scenario — graph with initial scene "start" offering
option (id 1, "go north", target "hall") — `select_option 1` moves the player
to "hall", appends the history entry with input "1" and output "go north", and
returns success. -/
theorem select_option_go_north :
    (select_option demoState 1).map
      (fun r => (r.1.player.current_scene_id, r.1.history_window, r.2)) =
    .ok ("hall", [{ action := "1", result := "go north" }], true) := rfl

end RPG
